import Mathlib

/-!
Shallow embedding, in Lean 4, of the validation-and-derivation core of this
repository: the Cognito custom-attribute resolver (`StringAttr`, `NumberAttr`,
`BooleanAttr`, `DateTimeAttr` from the user-pool attribute module) and the SQS
`Queue` resolver (`determineFifoProps`, `_determineEncryptionProps`,
`fromQueueAttributes` and the constructor's resolution pipeline from
`packages/@aws-cdk/aws-sqs/lib/queue.ts`).

Modelling conventions:
* A TypeScript `number` used as a length/value bound is modelled as `Int`
  (every bound the code compares against is integral).  JavaScript truthiness
  of a number (`0` and absent are falsy) is made explicit via `numTruthy` /
  `optNumTruthy`.
* A TypeScript optional field `x?: T` is `Option T`.
* A string that may be a late-bound token (CDK `Token`-encoded string) is a
  `TokenString`: its raw text together with the value of
  `Token.isUnresolved` on it.  At the TypeScript level such a value still has
  `typeof x === 'string'`.
* `throw new Error(...)` becomes `Except.error` with an inductive error type;
  each constructor corresponds to one `throw` site and carries the values the
  message interpolates.
* `Duration` values are modelled by their `toSeconds()` result (`Nat`).
-/

/-- Truthiness of a JavaScript number: `0` is falsy, everything else truthy. -/
def numTruthy (n : Int) : Bool := n != 0

/-- Truthiness of an optional JavaScript number: `undefined` and `0` are falsy. -/
def optNumTruthy : Option Int → Bool
  | some n => numTruthy n
  | none => false

/-! ## Cognito custom attributes (`user-pool-attr`) -/

/-- Props for constructing a `StringAttr` (fields `minLen?`, `maxLen?`). -/
structure StringAttrProps where
  minLen : Option Int := none
  maxLen : Option Int := none
deriving DecidableEq, Repr

/-- The state of a constructed `StringAttr`: the two bounds stored by the
constructor. -/
structure StringAttr where
  minLen : Option Int
  maxLen : Option Int
deriving DecidableEq, Repr

/-- Errors thrown by the `StringAttr` constructor; each constructor carries the
offending value interpolated into the message. -/
inductive StringAttrError where
  /-- minLen cannot be less than 0 (value: _). -/
  | invalidMinLen (value : Int)
  /-- maxLen cannot be greater than 2048 (value: _). -/
  | invalidMaxLen (value : Int)
deriving DecidableEq, Repr

/-- The `StringAttr` constructor: validates the bounds (note the JavaScript
truthiness guard `props.minLen && props.minLen < 0`, under which a bound of `0`
skips the check) and stores them. -/
def StringAttr.make (props : StringAttrProps) : Except StringAttrError StringAttr :=
  if optNumTruthy props.minLen && decide (props.minLen.getD 0 < 0) then
    Except.error (StringAttrError.invalidMinLen (props.minLen.getD 0))
  else if optNumTruthy props.maxLen && decide (2048 < props.maxLen.getD 0) then
    Except.error (StringAttrError.invalidMaxLen (props.maxLen.getD 0))
  else
    Except.ok { minLen := props.minLen, maxLen := props.maxLen }

/-- The `stringAttributeConstraints` fragment: bounds rendered with
`Number.prototype.toString` (decimal strings). -/
structure StringConstraints where
  minLength : Option String
  maxLength : Option String
deriving DecidableEq, Repr

/-- The `numberAttributeConstraints` fragment. -/
structure NumberConstraints where
  minValue : Option String
  maxValue : Option String
deriving DecidableEq, Repr

/-- The `constraints` value of a `CustomAttrConfig`: which keyed sub-object the
fragment carries. -/
inductive AttrConstraints where
  | stringAttributeConstraints (c : StringConstraints)
  | numberAttributeConstraints (c : NumberConstraints)
deriving DecidableEq, Repr

/-- Configuration fed into CloudFormation for a custom attribute type. -/
structure CustomAttrConfig where
  attrDataType : String
  constraints : Option AttrConstraints := none
deriving DecidableEq, Repr

/-- Decimal string rendering of a bound, as `Number.prototype.toString`
produces for an integral value. -/
def numToString (n : Int) : String := toString n

/-- `StringAttr.bind()`: builds the constraints fragment and omits it when
`this.minLen || this.maxLen` is falsy (so a bound that is absent or `0` does
not count as set). -/
def StringAttr.bind (a : StringAttr) : CustomAttrConfig :=
  let constraints := AttrConstraints.stringAttributeConstraints
    { minLength := a.minLen.map numToString
      maxLength := a.maxLen.map numToString }
  { attrDataType := "String"
    constraints :=
      if optNumTruthy a.minLen || optNumTruthy a.maxLen then some constraints else none }

/-- Props for `NumberAttr` (fields `min?`, `max?`). -/
structure NumberAttrProps where
  min : Option Int := none
  max : Option Int := none
deriving DecidableEq, Repr

/-- The state of a constructed `NumberAttr`; its constructor performs no
validation and merely stores the bounds. -/
structure NumberAttr where
  min : Option Int
  max : Option Int
deriving DecidableEq, Repr

/-- The `NumberAttr` constructor: no validation. -/
def NumberAttr.make (props : NumberAttrProps) : NumberAttr :=
  { min := props.min, max := props.max }

/-- `NumberAttr.bind()`: analogous to `StringAttr.bind()` with
`numberAttributeConstraints` and the `this.min || this.max` truthiness guard. -/
def NumberAttr.bind (a : NumberAttr) : CustomAttrConfig :=
  let constraints := AttrConstraints.numberAttributeConstraints
    { minValue := a.min.map numToString
      maxValue := a.max.map numToString }
  { attrDataType := "Number"
    constraints :=
      if optNumTruthy a.min || optNumTruthy a.max then some constraints else none }

/-- `BooleanAttr.bind()`. -/
def BooleanAttr.bind : CustomAttrConfig := { attrDataType := "Boolean" }

/-- `DateTimeAttr.bind()`. -/
def DateTimeAttr.bind : CustomAttrConfig := { attrDataType := "DateTime" }

/-- `true` when the given `minLen` is set and negative (the condition under
which the claim says construction must fail). -/
def hasBadMinLen (p : StringAttrProps) : Bool :=
  match p.minLen with
  | some m => decide (m < 0)
  | none => false

/-- `true` when the given `maxLen` is set and exceeds 2048. -/
def hasBadMaxLen (p : StringAttrProps) : Bool :=
  match p.maxLen with
  | some m => decide (2048 < m)
  | none => false

/-- `true` when construction succeeded. -/
def exceptOk {ε α : Type} : Except ε α → Bool
  | Except.ok _ => true
  | Except.error _ => false

/-! ## SQS queue resolver (`queue.ts`) -/

/-- A TypeScript string value that may be a CDK token encoding: `text` is the
raw string, `unresolved` the value of `Token.isUnresolved` on it.  A token
encoding is still a string at runtime (`typeof x === 'string'`). -/
structure TokenString where
  text : String
  unresolved : Bool
deriving DecidableEq, Repr

/-- The `QueueEncryption` enum. -/
inductive QueueEncryption where
  | UNENCRYPTED
  | KMS_MANAGED
  | KMS
deriving DecidableEq, Repr

/-- A dead-letter queue reference: the target queue's ARN and the max receive
count (`DeadLetterQueue` interface). -/
structure DeadLetterQueueRef where
  queueArn : String
  maxReceiveCount : Nat
deriving DecidableEq, Repr

/-- `QueueProps`: the optional construction properties of a `Queue`.
Durations are modelled by their `toSeconds()` value. -/
structure QueueProps where
  queueName : Option TokenString := none
  retentionPeriod : Option Nat := none
  deliveryDelay : Option Nat := none
  maxMessageSizeBytes : Option Nat := none
  receiveMessageWaitTime : Option Nat := none
  visibilityTimeout : Option Nat := none
  deadLetterQueue : Option DeadLetterQueueRef := none
  encryption : Option QueueEncryption := none
  encryptionMasterKey : Option String := none
  dataKeyReuse : Option Nat := none
  fifo : Option Bool := none
  contentBasedDeduplication : Option Bool := none
deriving DecidableEq, Repr

/-- Truthiness of an optional JavaScript boolean: only `true` is truthy. -/
def optBoolTruthy : Option Bool → Bool
  | some b => b
  | none => false

/-- The source's `s.endsWith('.fifo')`, computed on the character list so that
concrete instances reduce inside the kernel (`String.endsWith` itself is
defined by well-founded recursion and does not; the two agree on every
string). -/
def endsWithFifo (s : String) : Bool := ".fifo".data.isSuffixOf s.data

/-- Errors thrown by `determineFifoProps`; one constructor per `throw` site. -/
inductive FifoError where
  /-- FIFO queue names must end in '.fifo' -/
  | fifoNameMismatch
  /-- Non-FIFO queue name may not end in '.fifo' -/
  | nonFifoNameMismatch
  /-- Content-based deduplication can only be defined for FIFO queues -/
  | dedupWithoutFifo
deriving DecidableEq, Repr

/-- The subset of props returned by `determineFifoProps`. -/
structure FifoProps where
  fifoQueue : Option Bool
  contentBasedDeduplication : Option Bool
deriving DecidableEq, Repr

/-- The two inference steps of `determineFifoProps` (the reassignments of the
local `fifoQueue`): start from the explicit flag; if undefined, infer `true`
from a present, resolved queue name ending in `.fifo` (the `queueName &&`
truthiness guard only skips the empty string, whose `endsWith` test is false
anyway); if still undefined, infer `true` from a truthy
`contentBasedDeduplication`. -/
def inferredFifo (props : QueueProps) : Option Bool :=
  let fifoQueue := props.fifo
  let fifoQueue :=
    match fifoQueue, props.queueName with
    | none, some n => if !n.unresolved && endsWithFifo n.text then some true else none
    | f, _ => f
  match fifoQueue with
  | none => if optBoolTruthy props.contentBasedDeduplication then some true else none
  | f => f

/-- `Queue.determineFifoProps`: infer the FIFO flag, cross-check it against the
queue name's `.fifo` suffix whenever a name is present (`typeof queueName ===
'string'` holds for token-encoded names too), then reject truthy
content-based deduplication without FIFO. -/
def determineFifoProps (props : QueueProps) : Except FifoError FifoProps :=
  let fifoQueue := inferredFifo props
  match props.queueName with
  | some n =>
    if optBoolTruthy fifoQueue && !endsWithFifo n.text then
      Except.error FifoError.fifoNameMismatch
    else if !optBoolTruthy fifoQueue && endsWithFifo n.text then
      Except.error FifoError.nonFifoNameMismatch
    else if optBoolTruthy props.contentBasedDeduplication && !optBoolTruthy fifoQueue then
      Except.error FifoError.dedupWithoutFifo
    else
      Except.ok { fifoQueue := fifoQueue
                  contentBasedDeduplication := props.contentBasedDeduplication }
  | none =>
    if optBoolTruthy props.contentBasedDeduplication && !optBoolTruthy fifoQueue then
      Except.error FifoError.dedupWithoutFifo
    else
      Except.ok { fifoQueue := fifoQueue
                  contentBasedDeduplication := props.contentBasedDeduplication }

/-- A KMS key handle as seen by the queue resolution: either externally
supplied (by its ARN) or newly created by the resolution (carrying the
description string `Created by <node path>`). -/
inductive KeyRef where
  | supplied (arn : String)
  | created (description : String)
deriving DecidableEq, Repr

/-- The value placed in `kmsMasterKeyId`: the fixed SQS-managed alias, or the
(possibly late-bound) ARN of a key handle. -/
inductive KmsKeyId where
  | managedAlias
  | arnOf (k : KeyRef)
deriving DecidableEq, Repr

/-- The encryption-related subset of the CloudFormation fragment. -/
structure EncryptionProps where
  kmsMasterKeyId : Option KmsKeyId := none
  kmsDataKeyReusePeriodSeconds : Option Nat := none
deriving DecidableEq, Repr

/-- Result of `_determineEncryptionProps`. -/
structure EncryptionResult where
  encryptionProps : EncryptionProps
  encryptionMasterKey : Option KeyRef := none
deriving DecidableEq, Repr

/-- Lines 278-282 of `queue.ts`: effective encryption mode — the explicit mode
or `UNENCRYPTED`, upgraded to `KMS` whenever a master key is supplied. -/
def effectiveEncryption (props : QueueProps) : QueueEncryption :=
  let encryption := props.encryption.getD QueueEncryption.UNENCRYPTED
  if encryption != QueueEncryption.KMS && props.encryptionMasterKey.isSome then
    QueueEncryption.KMS
  else
    encryption

/-- `_determineEncryptionProps`: dispatch on the effective mode.  In the `KMS`
branch, `props.encryptionMasterKey || new kms.Key(...)` either reuses the
supplied key or creates a new one described by the construct's node path.
The trailing `throw` of the source is unreachable (the enum has exactly the
three matched values) and the total match reflects that. -/
def determineEncryptionProps (props : QueueProps) (nodePath : String) : EncryptionResult :=
  match effectiveEncryption props with
  | QueueEncryption.UNENCRYPTED => { encryptionProps := {} }
  | QueueEncryption.KMS_MANAGED =>
    { encryptionProps :=
        { kmsMasterKeyId := some KmsKeyId.managedAlias
          kmsDataKeyReusePeriodSeconds := props.dataKeyReuse } }
  | QueueEncryption.KMS =>
    let masterKey :=
      match props.encryptionMasterKey with
      | some arn => KeyRef.supplied arn
      | none => KeyRef.created ("Created by " ++ nodePath)
    { encryptionMasterKey := some masterKey
      encryptionProps :=
        { kmsMasterKeyId := some (KmsKeyId.arnOf masterKey)
          kmsDataKeyReusePeriodSeconds := props.dataKeyReuse } }

/-- Number of new key entities instantiated by an encryption result (the
`new kms.Key(this, 'Key', ...)` side effect). -/
def createdKeyCount (r : EncryptionResult) : Nat :=
  match r.encryptionMasterKey with
  | some (KeyRef.created _) => 1
  | _ => 0

/-- The redrive fragment `{ deadLetterTargetArn, maxReceiveCount }`. -/
structure RedrivePolicy where
  deadLetterTargetArn : String
  maxReceiveCount : Nat
deriving DecidableEq, Repr

/-- The `CfnQueue` property fragment assembled by the `Queue` constructor. -/
structure QueueFragment where
  queueName : Option TokenString := none
  fifoQueue : Option Bool := none
  contentBasedDeduplication : Option Bool := none
  kmsMasterKeyId : Option KmsKeyId := none
  kmsDataKeyReusePeriodSeconds : Option Nat := none
  redrivePolicy : Option RedrivePolicy := none
  delaySeconds : Option Nat := none
  maximumMessageSize : Option Nat := none
  messageRetentionPeriod : Option Nat := none
  receiveMessageWaitTimeSeconds : Option Nat := none
  visibilityTimeout : Option Nat := none
deriving DecidableEq, Repr

/-- The observable outcome of a successful queue resolution: the fragment, the
key handle attached to the queue, and the resolved `fifo` attribute
(`fifoProps.fifoQueue || false`). -/
structure QueueResolution where
  fragment : QueueFragment
  encryptionMasterKey : Option KeyRef := none
  fifo : Bool
deriving DecidableEq, Repr

/-- The resolution pipeline of the `Queue` constructor from line 252 on: first
`_determineEncryptionProps` (which may create a key as a side effect), then
`determineFifoProps` (which may throw), then the `CfnQueue` fragment.  The
second component counts the key entities created before the outcome was
reached, so a thrown `FifoError` does not undo an already created key. -/
def resolveQueue (props : QueueProps) (nodePath : String) :
    Except FifoError QueueResolution × Nat :=
  let enc := determineEncryptionProps props nodePath
  let created := createdKeyCount enc
  match determineFifoProps props with
  | Except.error e => (Except.error e, created)
  | Except.ok fifoProps =>
    let redrivePolicy := props.deadLetterQueue.map fun d =>
      { deadLetterTargetArn := d.queueArn, maxReceiveCount := d.maxReceiveCount }
    (Except.ok
      { fragment :=
          { queueName := props.queueName
            fifoQueue := fifoProps.fifoQueue
            contentBasedDeduplication := fifoProps.contentBasedDeduplication
            kmsMasterKeyId := enc.encryptionProps.kmsMasterKeyId
            kmsDataKeyReusePeriodSeconds := enc.encryptionProps.kmsDataKeyReusePeriodSeconds
            redrivePolicy := redrivePolicy
            delaySeconds := props.deliveryDelay
            maximumMessageSize := props.maxMessageSizeBytes
            messageRetentionPeriod := props.retentionPeriod
            receiveMessageWaitTimeSeconds := props.receiveMessageWaitTime
            visibilityTimeout := props.visibilityTimeout }
        encryptionMasterKey := enc.encryptionMasterKey
        fifo := (fifoProps.fifoQueue.getD false) },
     created)

/-! ### Import path (`Queue.fromQueueAttributes`) -/

/-- Ambient deployment context of the surrounding stack. -/
structure StackContext where
  region : String
  account : String
  urlSuffix : String
deriving DecidableEq, Repr

/-- `QueueAttributes`: the reference attributes accepted by
`Queue.fromQueueAttributes`. -/
structure QueueAttributes where
  queueArn : String
  queueName : Option String := none
  queueUrl : Option String := none
  keyArn : Option String := none
deriving DecidableEq, Repr

/-- JavaScript `a || b` on an optional string: an absent or empty string falls
through to the default. -/
def orFalsyStr (a : Option String) (b : String) : String :=
  match a with
  | some s => if s = "" then b else s
  | none => b

/-- JavaScript truthiness filter on an optional string (used for
`attrs.keyArn ? ... : undefined`). -/
def truthyStr : Option String → Option String
  | some s => if s = "" then none else some s
  | none => none

/-- Splitting a character list at `:` separators, accumulating the current
component (structurally recursive so that concrete instances reduce inside
the kernel; agrees with `String.splitOn ":"` on ARN strings). -/
def splitColon : List Char → List Char → List (List Char)
  | [], acc => [acc.reverse]
  | c :: cs, acc =>
    if c = ':' then acc.reverse :: splitColon cs [] else splitColon cs (c :: acc)

/-- Modelled from the spec: `Stack.parseArn` (core library, not under `src/`)
splits the ARN on `:` and exposes its resource segment, the sixth component
(`arn:partition:service:region:account:resource`). -/
def arnResource (arn : String) : String :=
  ((splitColon arn.data []).map List.asString).getD 5 ""

/-- The imported queue produced by `Queue.fromQueueAttributes`. -/
structure ImportedQueue where
  queueArn : String
  queueUrl : String
  queueName : String
  encryptionMasterKey : Option String := none
  fifo : Bool
deriving DecidableEq, Repr

/-- `Queue.fromQueueAttributes`: derive the missing name from the ARN's
resource segment, the missing URL from the fixed pattern, the key handle from
`keyArn` when truthy, and `fifo` from the `.fifo` suffix of the derived name.
No validation is performed: the function is total. -/
def fromQueueAttributes (stack : StackContext) (attrs : QueueAttributes) : ImportedQueue :=
  let queueName := orFalsyStr attrs.queueName (arnResource attrs.queueArn)
  let queueUrl := orFalsyStr attrs.queueUrl
    ("https://sqs." ++ stack.region ++ "." ++ stack.urlSuffix ++ "/" ++
      stack.account ++ "/" ++ queueName)
  { queueArn := attrs.queueArn
    queueUrl := queueUrl
    queueName := queueName
    encryptionMasterKey := truthyStr attrs.keyArn
    fifo := endsWithFifo queueName }

/-! ## Theorems: custom attributes -/

/-- C5: constructing a Text (String) custom attribute fails, with an error
citing the offending value, exactly when `minLen < 0` or `maxLen > 2048`;
every other bound combination (including omitted bounds) constructs
successfully and stores the given bounds. -/
theorem stringAttr_make_validation (p : StringAttrProps) :
    (exceptOk (StringAttr.make p) = !(hasBadMinLen p || hasBadMaxLen p)) ∧
    (hasBadMinLen p = true →
      StringAttr.make p = Except.error (StringAttrError.invalidMinLen (p.minLen.getD 0))) ∧
    (hasBadMinLen p = false → hasBadMaxLen p = true →
      StringAttr.make p = Except.error (StringAttrError.invalidMaxLen (p.maxLen.getD 0))) ∧
    ((hasBadMinLen p || hasBadMaxLen p) = false →
      StringAttr.make p = Except.ok { minLen := p.minLen, maxLen := p.maxLen }) := by
  obtain ⟨mn, mx⟩ := p
  cases mn with
  | none =>
    cases mx with
    | none =>
      simp [StringAttr.make, hasBadMinLen, hasBadMaxLen, optNumTruthy, numTruthy, exceptOk]
    | some b =>
      by_cases hb : 2048 < b
      · have hb0 : (b != 0) = true := by simp; omega
        simp [StringAttr.make, hasBadMinLen, hasBadMaxLen, optNumTruthy, numTruthy, exceptOk,
          hb, hb0]
      · simp [StringAttr.make, hasBadMinLen, hasBadMaxLen, optNumTruthy, numTruthy, exceptOk, hb]
  | some a =>
    by_cases ha : a < 0
    · have ha0 : (a != 0) = true := by simp; omega
      cases mx <;>
        simp [StringAttr.make, hasBadMinLen, hasBadMaxLen, optNumTruthy, numTruthy, exceptOk,
          ha, ha0]
    · cases mx with
      | none =>
        simp [StringAttr.make, hasBadMinLen, hasBadMaxLen, optNumTruthy, numTruthy, exceptOk, ha]
      | some b =>
        by_cases hb : 2048 < b
        · have hb0 : (b != 0) = true := by simp; omega
          simp [StringAttr.make, hasBadMinLen, hasBadMaxLen, optNumTruthy, numTruthy, exceptOk,
            ha, hb, hb0]
        · simp [StringAttr.make, hasBadMinLen, hasBadMaxLen, optNumTruthy, numTruthy, exceptOk,
            ha, hb]

/-- Closed instance of `stringAttr_make_validation` at `minLen = -1`,
`maxLen = 3000`. -/
theorem stringAttr_make_validation_witness :
    hasBadMinLen { minLen := some (-1), maxLen := some 3000 } = true ∧
    StringAttr.make { minLen := some (-1), maxLen := some 3000 } =
      Except.error (StringAttrError.invalidMinLen (-1)) :=
  ⟨by decide, (stringAttr_make_validation { minLen := some (-1), maxLen := some 3000 }).2.1
    (by decide)⟩

/-- C6 counterexample: a `StringAttr` whose `minLen` was explicitly set to `0`
(with `maxLen` unset) constructs successfully, yet `bind` omits the
constraints sub-object — a set bound of value `0` does NOT produce a
constraints sub-object, because the `this.minLen || this.maxLen` guard uses
JavaScript number truthiness. -/
theorem stringAttr_bind_zero_bound_counterexample :
    StringAttr.make { minLen := some 0, maxLen := none } =
      Except.ok { minLen := some 0, maxLen := none } ∧
    (StringAttr.bind { minLen := some 0, maxLen := none }).constraints = none := by
  constructor <;> rfl

/-- C6 (amended): `StringAttr.bind` returns dataType `"String"`; its
constraints sub-object is omitted exactly when both bounds are JavaScript
falsy, i.e. each is unset or `0` (so a bound set to `0` counts as unset for
this purpose); when present, the sub-object carries the decimal string
renderings of exactly the stored bounds. -/
theorem stringAttr_bind_constraints (a : StringAttr) :
    (StringAttr.bind a).attrDataType = "String" ∧
    ((StringAttr.bind a).constraints = none ↔
      (optNumTruthy a.minLen || optNumTruthy a.maxLen) = false) ∧
    ((optNumTruthy a.minLen || optNumTruthy a.maxLen) = true →
      (StringAttr.bind a).constraints = some (AttrConstraints.stringAttributeConstraints
        { minLength := a.minLen.map numToString
          maxLength := a.maxLen.map numToString })) := by
  obtain ⟨mn, mx⟩ := a
  cases h : (optNumTruthy mn || optNumTruthy mx) <;>
    simp [StringAttr.bind, h]

/-- Closed instance of `stringAttr_bind_constraints` at `minLen = 0`,
`maxLen = 5`: the zero bound is rendered as `"0"` once any bound is truthy. -/
theorem stringAttr_bind_constraints_witness :
    (StringAttr.bind { minLen := some 0, maxLen := some 5 }).constraints =
      some (AttrConstraints.stringAttributeConstraints
        { minLength := some "0", maxLength := some "5" }) := by
  have h := (stringAttr_bind_constraints { minLen := some 0, maxLen := some 5 }).2.2 (by decide)
  exact h.trans (by decide)

/-- C10: whenever `StringAttr.bind` and `NumberAttr.bind` emit a constraints
sub-object, every bound in it is the decimal string rendering
(`Number.prototype.toString`) of the configured number — the fields hold
strings, not numbers. -/
theorem bind_constraints_decimal_strings (a : StringAttr) (b : NumberAttr)
    (sc : StringConstraints) (nc : NumberConstraints)
    (hs : (StringAttr.bind a).constraints =
      some (AttrConstraints.stringAttributeConstraints sc))
    (hn : (NumberAttr.bind b).constraints =
      some (AttrConstraints.numberAttributeConstraints nc)) :
    sc.minLength = a.minLen.map numToString ∧
    sc.maxLength = a.maxLen.map numToString ∧
    nc.minValue = b.min.map numToString ∧
    nc.maxValue = b.max.map numToString := by
  unfold StringAttr.bind at hs
  unfold NumberAttr.bind at hn
  simp only at hs hn
  split at hs
  · cases hs; split at hn
    · cases hn; simp
    · cases hn
  · cases hs

/-- Closed instance of `bind_constraints_decimal_strings` at concrete bounds,
including a negative number value. -/
theorem bind_constraints_decimal_strings_witness :
    (some "1" : Option String) = (some (1 : Int)).map numToString ∧
    (some "2048" : Option String) = (some (2048 : Int)).map numToString ∧
    (some "-5" : Option String) = (some (-5 : Int)).map numToString ∧
    (none : Option String) = (none : Option Int).map numToString :=
  bind_constraints_decimal_strings
    { minLen := some 1, maxLen := some 2048 } { min := some (-5), max := none }
    { minLength := some "1", maxLength := some "2048" }
    { minValue := some "-5", maxValue := none } (by decide) (by decide)

/-! ## Theorems: FIFO derivation -/

/-- When the `fifo` flag is explicit, the two inference steps leave it
unchanged. -/
theorem inferredFifo_of_explicit (props : QueueProps) (b : Bool)
    (h : props.fifo = some b) : inferredFifo props = some b := by
  unfold inferredFifo
  rw [h]

/-- With a present queue name (token-encoded or not), `determineFifoProps`
raises one of the two suffix-mismatch errors exactly when the final inferred
fifo value disagrees with whether the raw name text ends in `.fifo`. -/
theorem fifo_mismatch_error_iff (props : QueueProps) (n : TokenString)
    (hn : props.queueName = some n) :
    (∃ e, determineFifoProps props = Except.error e ∧
      (e = FifoError.fifoNameMismatch ∨ e = FifoError.nonFifoNameMismatch)) ↔
    optBoolTruthy (inferredFifo props) ≠ endsWithFifo n.text := by
  unfold determineFifoProps
  rw [hn]
  cases hF : optBoolTruthy (inferredFifo props) <;>
    cases hE : endsWithFifo n.text <;>
      simp [hF, hE] <;>
      split <;> simp

/-- Without a queue name, the only error `determineFifoProps` can raise is the
deduplication one. -/
theorem fifo_no_name_no_mismatch (props : QueueProps) (hn : props.queueName = none) :
    ∀ e, determineFifoProps props = Except.error e → e = FifoError.dedupWithoutFifo := by
  intro e
  simp only [determineFifoProps, hn]
  split <;> simp_all

/-- C1: for every `QueueProps` whose name, when present, is a concrete
(non-token) string: an explicit `fifo = false` with a name ending in `.fifo`
fails with the non-FIFO suffix error, and more generally one of the two
FIFO/name-mismatch errors is raised if and only if the final inferred fifo
value disagrees with whether the concrete name ends in `.fifo`. -/
theorem determineFifoProps_fifo_name_agreement (props : QueueProps)
    (hconc : ∀ n, props.queueName = some n → n.unresolved = false) :
    (∀ n, props.queueName = some n → endsWithFifo n.text = true →
      props.fifo = some false →
      determineFifoProps props = Except.error FifoError.nonFifoNameMismatch) ∧
    ((∃ e, determineFifoProps props = Except.error e ∧
        (e = FifoError.fifoNameMismatch ∨ e = FifoError.nonFifoNameMismatch)) ↔
      (∃ n, props.queueName = some n ∧
        optBoolTruthy (inferredFifo props) ≠ endsWithFifo n.text)) := by
  constructor
  · intro n hn he hf
    have hi : inferredFifo props = some false := inferredFifo_of_explicit props false hf
    unfold determineFifoProps
    rw [hn, hi]
    simp [optBoolTruthy, he]
  · cases hq : props.queueName with
    | none =>
      constructor
      · rintro ⟨e, he, hdisj⟩
        have hd := fifo_no_name_no_mismatch props hq e he
        rcases hdisj with h | h <;> simp [hd] at h
      · rintro ⟨n, hn, _⟩
        cases hn
    | some n =>
      rw [fifo_mismatch_error_iff props n hq]
      constructor
      · intro h
        exact ⟨n, rfl, h⟩
      · rintro ⟨n', hn', h⟩
        injection hn' with h2
        rw [h2]
        exact h

/-- Closed instance of C1 at the concrete spec with name `orders.fifo` and an
explicit `fifo = false`. -/
theorem determineFifoProps_fifo_name_agreement_witness :
    determineFifoProps { queueName := some ⟨"orders.fifo", false⟩, fifo := some false } =
      Except.error FifoError.nonFifoNameMismatch :=
  (determineFifoProps_fifo_name_agreement
      { queueName := some ⟨"orders.fifo", false⟩, fifo := some false }
      (by intro n h; injection h with h2; rw [← h2])).1
    ⟨"orders.fifo", false⟩ rfl (by decide) rfl

/-- C2: a defined, concrete name ending in `.fifo` with the fifo flag unset
makes resolution succeed with a resolved fifo value of `true`. -/
theorem determineFifoProps_infers_from_name (props : QueueProps) (n : TokenString)
    (hn : props.queueName = some n) (hc : n.unresolved = false)
    (he : endsWithFifo n.text = true) (hf : props.fifo = none) :
    determineFifoProps props = Except.ok
      { fifoQueue := some true
        contentBasedDeduplication := props.contentBasedDeduplication } := by
  have hi : inferredFifo props = some true := by
    unfold inferredFifo
    rw [hf, hn]
    simp [hc, he]
  unfold determineFifoProps
  rw [hn, hi]
  simp [optBoolTruthy, he]

/-- Closed instance of C2 at a spec whose only property is the name
`orders.fifo`. -/
theorem determineFifoProps_infers_from_name_witness :
    determineFifoProps { queueName := some ⟨"orders.fifo", false⟩ } =
      Except.ok { fifoQueue := some true, contentBasedDeduplication := none } :=
  determineFifoProps_infers_from_name { queueName := some ⟨"orders.fifo", false⟩ }
    ⟨"orders.fifo", false⟩ rfl rfl (by decide) rfl

/-- C3 counterexample: with `contentBasedDeduplication = true`, `fifo` unset
and no queue name (so nothing forces fifo to `true` via the name), resolution
SUCCEEDS — the deduplication flag itself infers `fifo = true` — contradicting
the claim that such a spec fails with a `ValidationError`. -/
theorem dedup_fifo_unset_counterexample :
    determineFifoProps { contentBasedDeduplication := some true } =
      Except.ok { fifoQueue := some true, contentBasedDeduplication := some true } := by
  rfl

/-- C3 (amended): with `contentBasedDeduplication = true` and `fifo`
EXPLICITLY `false`, resolution always fails (with the dedup error, or a
suffix-mismatch error when a name ending in `.fifo` is present).  When `fifo`
is unset, content-based deduplication itself infers `fifo = true`, so
resolution only fails if a supplied name lacks the `.fifo` suffix. -/
theorem dedup_explicit_nonfifo_fails (props : QueueProps)
    (hd : props.contentBasedDeduplication = some true) (hf : props.fifo = some false) :
    ∃ e, determineFifoProps props = Except.error e := by
  have hi : inferredFifo props = some false := inferredFifo_of_explicit props false hf
  unfold determineFifoProps
  rw [hi, hd]
  cases hq : props.queueName with
  | none => simp [optBoolTruthy]
  | some n =>
    cases he : endsWithFifo n.text <;> simp [optBoolTruthy, he]

/-- Closed instance of the amended C3 at a nameless spec with explicit
`fifo = false` and deduplication on. -/
theorem dedup_explicit_nonfifo_fails_witness :
    ∃ e, determineFifoProps { fifo := some false, contentBasedDeduplication := some true } =
      Except.error e :=
  dedup_explicit_nonfifo_fails
    { fifo := some false, contentBasedDeduplication := some true } rfl rfl

/-- C4 counterexample: a late-bound (unresolved) queue name does NOT make the
suffix checks be skipped — with an explicit `fifo = true` and an unresolved
name whose raw token text does not end in `.fifo`, resolution raises the
FIFO suffix-mismatch error. -/
theorem unresolved_name_mismatch_counterexample :
    determineFifoProps { queueName := some ⟨"lazy-name", true⟩, fifo := some true } =
      Except.error FifoError.fifoNameMismatch := by
  rfl

/-- C4 (amended): for a late-bound queue name only the fifo INFERENCE from the
name suffix is skipped (leaving inference to the deduplication flag); the
suffix cross-check still runs against the raw placeholder text, raising a
suffix-mismatch error exactly when the final fifo value disagrees with whether
that text ends in `.fifo`. -/
theorem unresolved_name_suffix_check_still_runs (props : QueueProps) (n : TokenString)
    (hn : props.queueName = some n) (hu : n.unresolved = true) :
    (props.fifo = none → inferredFifo props =
      (if optBoolTruthy props.contentBasedDeduplication then some true else none)) ∧
    ((∃ e, determineFifoProps props = Except.error e ∧
        (e = FifoError.fifoNameMismatch ∨ e = FifoError.nonFifoNameMismatch)) ↔
      optBoolTruthy (inferredFifo props) ≠ endsWithFifo n.text) := by
  constructor
  · intro hf
    unfold inferredFifo
    rw [hf, hn]
    simp [hu]
  · exact fifo_mismatch_error_iff props n hn

/-- Closed instance of the amended C4: an unresolved name whose token text
happens to end in `.fifo`, with fifo left unset and no deduplication, still
trips the non-FIFO suffix check. -/
theorem unresolved_name_suffix_check_still_runs_witness :
    ∃ e, determineFifoProps { queueName := some ⟨"pending.fifo", true⟩ } =
        Except.error e ∧
      (e = FifoError.fifoNameMismatch ∨ e = FifoError.nonFifoNameMismatch) :=
  ((unresolved_name_suffix_check_still_runs { queueName := some ⟨"pending.fifo", true⟩ }
      ⟨"pending.fifo", true⟩ rfl rfl).2).mpr (by decide)

/-! ## Theorems: encryption derivation, import path, resolution pipeline -/

/-- C7: supplying an external master key while `encryption` is unset or set to
a mode other than KMS (CustomerKey) upgrades the effective mode to KMS, uses
the supplied key as the returned key handle and in the fragment's
`kmsMasterKeyId`, and creates no new key entity.  The encryption derivation
itself is total, so it succeeds on every such spec. -/
theorem suppliedKey_upgrades_encryption (props : QueueProps) (arn : String)
    (nodePath : String) (hk : props.encryptionMasterKey = some arn)
    (he : props.encryption ≠ some QueueEncryption.KMS) :
    effectiveEncryption props = QueueEncryption.KMS ∧
    (determineEncryptionProps props nodePath).encryptionMasterKey =
      some (KeyRef.supplied arn) ∧
    (determineEncryptionProps props nodePath).encryptionProps.kmsMasterKeyId =
      some (KmsKeyId.arnOf (KeyRef.supplied arn)) ∧
    createdKeyCount (determineEncryptionProps props nodePath) = 0 := by
  have heff : effectiveEncryption props = QueueEncryption.KMS := by
    unfold effectiveEncryption
    rw [hk]
    cases h : props.encryption with
    | none => simp
    | some e => cases e <;> simp_all
  refine ⟨heff, ?_, ?_, ?_⟩ <;>
    simp [determineEncryptionProps, heff, hk, createdKeyCount]

/-- Closed instance of C7: a key ARN together with `encryption = KMS_MANAGED`
still yields customer-managed KMS with the supplied key and no created key. -/
theorem suppliedKey_upgrades_encryption_witness :
    effectiveEncryption
        { encryption := some QueueEncryption.KMS_MANAGED,
          encryptionMasterKey := some "arn:aws:kms:mykey" } = QueueEncryption.KMS ∧
    (determineEncryptionProps
        { encryption := some QueueEncryption.KMS_MANAGED,
          encryptionMasterKey := some "arn:aws:kms:mykey" }
        "Default/MyQueue").encryptionMasterKey =
      some (KeyRef.supplied "arn:aws:kms:mykey") ∧
    (determineEncryptionProps
        { encryption := some QueueEncryption.KMS_MANAGED,
          encryptionMasterKey := some "arn:aws:kms:mykey" }
        "Default/MyQueue").encryptionProps.kmsMasterKeyId =
      some (KmsKeyId.arnOf (KeyRef.supplied "arn:aws:kms:mykey")) ∧
    createdKeyCount (determineEncryptionProps
        { encryption := some QueueEncryption.KMS_MANAGED,
          encryptionMasterKey := some "arn:aws:kms:mykey" }
        "Default/MyQueue") = 0 :=
  suppliedKey_upgrades_encryption
    { encryption := some QueueEncryption.KMS_MANAGED,
      encryptionMasterKey := some "arn:aws:kms:mykey" }
    "arn:aws:kms:mykey" "Default/MyQueue" rfl (by simp)

/-- C8: importing a queue from attributes with no name and no URL derives the
name from the ARN's resource segment, the URL from the fixed pattern
`https://sqs.<region>.<url-suffix>/<account>/<name>`, and `fifo` from the
`.fifo` suffix of the derived name; `fromQueueAttributes` is a total function,
so no validation is applied on the import path.  The final conjunct is the
round-trip at the concrete ARN `arn:aws:sqs:us-east-1:123456789012:myqueue`
with url-suffix `amazonaws.com`. -/
theorem fromQueueAttributes_derivation (stack : StackContext) (attrs : QueueAttributes)
    (hn : attrs.queueName = none) (hu : attrs.queueUrl = none) :
    (fromQueueAttributes stack attrs).queueName = arnResource attrs.queueArn ∧
    (fromQueueAttributes stack attrs).queueUrl =
      "https://sqs." ++ stack.region ++ "." ++ stack.urlSuffix ++ "/" ++
        stack.account ++ "/" ++ arnResource attrs.queueArn ∧
    (fromQueueAttributes stack attrs).fifo =
      endsWithFifo (arnResource attrs.queueArn) ∧
    fromQueueAttributes
        { region := "us-east-1", account := "123456789012", urlSuffix := "amazonaws.com" }
        { queueArn := "arn:aws:sqs:us-east-1:123456789012:myqueue" } =
      { queueArn := "arn:aws:sqs:us-east-1:123456789012:myqueue"
        queueUrl := "https://sqs.us-east-1.amazonaws.com/123456789012/myqueue"
        queueName := "myqueue"
        encryptionMasterKey := none
        fifo := false } := by
  refine ⟨?_, ?_, ?_, ?_⟩
  · simp [fromQueueAttributes, orFalsyStr, hn]
  · simp [fromQueueAttributes, orFalsyStr, hn, hu]
  · simp [fromQueueAttributes, orFalsyStr, hn]
  · rfl

/-- Closed instance of C8 at the concrete ARN of the claim. -/
theorem fromQueueAttributes_derivation_witness :
    fromQueueAttributes
        { region := "us-east-1", account := "123456789012", urlSuffix := "amazonaws.com" }
        { queueArn := "arn:aws:sqs:us-east-1:123456789012:myqueue" } =
      { queueArn := "arn:aws:sqs:us-east-1:123456789012:myqueue"
        queueUrl := "https://sqs.us-east-1.amazonaws.com/123456789012/myqueue"
        queueName := "myqueue"
        encryptionMasterKey := none
        fifo := false } :=
  (fromQueueAttributes_derivation
      { region := "us-east-1", account := "123456789012", urlSuffix := "amazonaws.com" }
      { queueArn := "arn:aws:sqs:us-east-1:123456789012:myqueue" } rfl rfl).2.2.2

/-- C9 counterexample: a spec selecting KMS (CustomerKey) encryption with no
supplied key and a FIFO/name contradiction fails resolution, yet one new key
entity has already been created — `_determineEncryptionProps` runs at line 252
before `determineFifoProps` at line 254, so the failure is not atomic with
respect to key creation. -/
theorem failed_resolution_creates_key_counterexample :
    resolveQueue
        { queueName := some ⟨"x.fifo", false⟩, fifo := some false,
          encryption := some QueueEncryption.KMS }
        "Default/Queue" =
      (Except.error FifoError.nonFifoNameMismatch, 1) := by
  rfl

/-- C9 (amended): resolution fails exactly when FIFO validation fails, and on
failure no resolution value (fragment) is produced; however, the number of
key entities created is always the one determined by the encryption step,
which runs first — so a spec selecting KMS encryption without a supplied key
has already created one key when FIFO validation then throws. -/
theorem resolveQueue_key_creation_not_atomic (props : QueueProps) (nodePath : String) :
    ((∃ e, (resolveQueue props nodePath).1 = Except.error e) ↔
      (∃ e, determineFifoProps props = Except.error e)) ∧
    (resolveQueue props nodePath).2 =
      createdKeyCount (determineEncryptionProps props nodePath) ∧
    (props.encryption = some QueueEncryption.KMS → props.encryptionMasterKey = none →
      ∀ e, determineFifoProps props = Except.error e →
        resolveQueue props nodePath = (Except.error e, 1)) := by
  refine ⟨?_, ?_, ?_⟩
  · cases h : determineFifoProps props <;> simp [resolveQueue, h]
  · cases h : determineFifoProps props <;> simp [resolveQueue, h]
  · intro he hk e hf
    have heff : effectiveEncryption props = QueueEncryption.KMS := by
      unfold effectiveEncryption
      rw [he]
      simp
    have henc : determineEncryptionProps props nodePath =
        { encryptionMasterKey := some (KeyRef.created ("Created by " ++ nodePath)),
          encryptionProps :=
            { kmsMasterKeyId :=
                some (KmsKeyId.arnOf (KeyRef.created ("Created by " ++ nodePath))),
              kmsDataKeyReusePeriodSeconds := props.dataKeyReuse } } := by
      unfold determineEncryptionProps
      rw [heff, hk]
    unfold resolveQueue
    rw [hf, henc]
    simp [createdKeyCount]

/-- Closed instance of the amended C9 at the concrete failing spec. -/
theorem resolveQueue_key_creation_not_atomic_witness :
    resolveQueue
        { queueName := some ⟨"x.fifo", false⟩, fifo := some false,
          encryption := some QueueEncryption.KMS }
        "Default/Queue2" =
      (Except.error FifoError.nonFifoNameMismatch, 1) :=
  (resolveQueue_key_creation_not_atomic
      { queueName := some ⟨"x.fifo", false⟩, fifo := some false,
        encryption := some QueueEncryption.KMS }
      "Default/Queue2").2.2 rfl rfl FifoError.nonFifoNameMismatch (by rfl)
